import Mathlib

/-!
Verification of the bcm2835-codec V4L2 mem2mem driver
(drivers/staging/vc04_services/bcm2835-codec/bcm2835-v4l2-codec.c).

The driver's pure geometry computations, buffer-header conversion, format
negotiation and streaming-lifecycle state transitions are shallowly embedded
as Lean functions over explicit state records.  C machine integers (`int`,
`unsigned int`, `u32`, `u64`) are modelled as `Nat`; all dimensions handled
by the driver are clamped to at most 16384 so the products involved stay far
below any fixed-width bound, and the kernel `ALIGN` macro (a bitmask for
power-of-two alignments) is modelled by its arithmetic round-up form, which
agrees with the bitmask on every alignment the driver uses (0, 16, 32, 64,
128).  Effects of calls into the remote MMAL accelerator (port disable
re-reading the port format, completion of a drain wait) are modelled as
explicit environment inputs so that the driver's save/restore logic is
verified against an adversarial remote side.
-/

/-! ### Constants from the driver source -/

def MIN_W : Nat := 32
def MIN_H : Nat := 32
def MAX_W_CODEC : Nat := 1920
def MAX_H_CODEC : Nat := 1920
def MAX_W_ISP : Nat := 16384
def MAX_H_ISP : Nat := 16384
def BPL_ALIGN : Nat := 32

def DEF_COMP_BUF_SIZE_GREATER_720P : Nat := 768 <<< 10
def DEF_COMP_BUF_SIZE_720P_OR_LESS : Nat := 512 <<< 10
def DEF_COMP_BUF_SIZE_JPEG : Nat := 4096 <<< 10

/-- `v4l2_fourcc(a, b, c, d)` from videodev2.h: pack four characters into a
32-bit format code. The same formula builds MMAL encoding fourccs. -/
def v4l2_fourcc (a b c d : Char) : Nat :=
  a.toNat ||| (b.toNat <<< 8) ||| (c.toNat <<< 16) ||| (d.toNat <<< 24)

def V4L2_PIX_FMT_YUV420 : Nat := v4l2_fourcc 'Y' 'U' '1' '2'
def V4L2_PIX_FMT_NV12_COL128 : Nat := v4l2_fourcc 'N' 'C' '1' '2'
def V4L2_PIX_FMT_H264 : Nat := v4l2_fourcc 'H' '2' '6' '4'
def V4L2_PIX_FMT_JPEG : Nat := v4l2_fourcc 'J' 'P' 'E' 'G'

def V4L2_FMT_FLAG_COMPRESSED : Nat := 1

/-- MMAL encoding ids (vchiq-mmal/mmal-encodings.h), same fourcc packing. -/
def MMAL_ENCODING_I420 : Nat := v4l2_fourcc 'I' '4' '2' '0'
def MMAL_ENCODING_YV12 : Nat := v4l2_fourcc 'Y' 'V' '1' '2'
def MMAL_ENCODING_NV12 : Nat := v4l2_fourcc 'N' 'V' '1' '2'
def MMAL_ENCODING_NV21 : Nat := v4l2_fourcc 'N' 'V' '2' '1'
def MMAL_ENCODING_YUVUV128 : Nat := v4l2_fourcc 'S' 'A' 'N' 'D'
def MMAL_ENCODING_H264 : Nat := v4l2_fourcc 'H' '2' '6' '4'
def MMAL_ENCODING_JPEG : Nat := v4l2_fourcc 'J' 'P' 'E' 'G'

/-- Kernel `ALIGN(x, a)` macro. For a power-of-two `a` the kernel computes
`(x + a - 1) & ~(a - 1)`, which equals this arithmetic round-up to a
multiple of `a`; for `a = 0` both forms give `0` (`Nat` division by zero is
zero, and the C mask `~(0 - 1)` is zero). -/
def ALIGN (x a : Nat) : Nat := (x + a - 1) / a * a

/-- The five device roles (`enum bcm2835_codec_role`). -/
inductive Role where
  | DECODE
  | ENCODE
  | ISP
  | DEINTERLACE
  | ENCODE_IMAGE
deriving DecidableEq

/-- `dev->max_w` as assigned in `bcm2835_codec_create`: the ISP role gets
`MAX_W_ISP`, every other role keeps the default `MAX_W_CODEC`. -/
def dev_max_w : Role → Nat
  | Role.ISP => MAX_W_ISP
  | _ => MAX_W_CODEC

/-- `dev->max_h` as assigned in `bcm2835_codec_create`. -/
def dev_max_h : Role → Nat
  | Role.ISP => MAX_H_ISP
  | _ => MAX_H_CODEC

/-- `struct bcm2835_codec_fmt`: one row of the static format catalog.
`bytesperline_align` is the per-role stride alignment array. -/
structure Fmt where
  fourcc : Nat
  depth : Nat
  bytesperline_align : Role → Nat
  flags : Nat
  mmal_fmt : Nat
  size_multiplier_x2 : Nat
  is_bayer : Bool

/-- Catalog row for `V4L2_PIX_FMT_YUV420`. -/
def fmt_yuv420 : Fmt where
  fourcc := V4L2_PIX_FMT_YUV420
  depth := 8
  bytesperline_align := fun r =>
    match r with
    | Role.DECODE => 32
    | Role.ENCODE => 64
    | Role.ISP => 64
    | Role.DEINTERLACE => 32
    | Role.ENCODE_IMAGE => 32
  flags := 0
  mmal_fmt := MMAL_ENCODING_I420
  size_multiplier_x2 := 3
  is_bayer := false

/-- Catalog row for `V4L2_PIX_FMT_NV12_COL128`. -/
def fmt_nv12_col128 : Fmt where
  fourcc := V4L2_PIX_FMT_NV12_COL128
  depth := 8
  bytesperline_align := fun _ => 32
  flags := 0
  mmal_fmt := MMAL_ENCODING_YUVUV128
  size_multiplier_x2 := 3
  is_bayer := false

/-- Catalog row for `V4L2_PIX_FMT_H264` (compressed; depth, alignment and
size multiplier are left zero in the source table). -/
def fmt_h264 : Fmt where
  fourcc := V4L2_PIX_FMT_H264
  depth := 0
  bytesperline_align := fun _ => 0
  flags := V4L2_FMT_FLAG_COMPRESSED
  mmal_fmt := MMAL_ENCODING_H264
  size_multiplier_x2 := 0
  is_bayer := false

/-- Catalog row for `V4L2_PIX_FMT_JPEG`. -/
def fmt_jpeg : Fmt where
  fourcc := V4L2_PIX_FMT_JPEG
  depth := 0
  bytesperline_align := fun _ => 0
  flags := V4L2_FMT_FLAG_COMPRESSED
  mmal_fmt := MMAL_ENCODING_JPEG
  size_multiplier_x2 := 0
  is_bayer := false

/-! ### Geometry calculator -/

/-- `get_sizeimage(bpl, width, height, fmt)` from the driver source. -/
def get_sizeimage (bpl width height : Nat) (fmt : Fmt) : Nat :=
  if fmt.flags &&& V4L2_FMT_FLAG_COMPRESSED ≠ 0 then
    if fmt.fourcc = V4L2_PIX_FMT_JPEG then DEF_COMP_BUF_SIZE_JPEG
    else if width * height > 1280 * 720 then DEF_COMP_BUF_SIZE_GREATER_720P
    else DEF_COMP_BUF_SIZE_720P_OR_LESS
  else if fmt.fourcc ≠ V4L2_PIX_FMT_NV12_COL128 then
    (bpl * height * fmt.size_multiplier_x2) >>> 1
  else
    ALIGN width 128 * bpl

/-- `get_bytesperline(width, height, fmt, role)` from the driver source. -/
def get_bytesperline (width height : Nat) (fmt : Fmt) (role : Role) : Nat :=
  if fmt.fourcc ≠ V4L2_PIX_FMT_NV12_COL128 then
    ALIGN ((width * fmt.depth) >>> 3) (fmt.bytesperline_align role)
  else
    (height * 3) >>> 1

/-- Spec-side definition of `bufferSizeFor`, transcribed from the spec's
words: compressed formats get a fixed worst-case allocation selected by
resolution tier (split at 1280×720) or a large fixed allocation for the
still-image compressed format (JPEG); the packed-column format computes
`alignUp(width,128) * stride`; all other raw formats compute
`stride * height * sizeMultiplier / 2`. -/
def bufferSizeFor (stride width height : Nat) (fmt : Fmt) : Nat :=
  if fmt.flags &&& V4L2_FMT_FLAG_COMPRESSED ≠ 0 then
    if fmt.fourcc = V4L2_PIX_FMT_JPEG then
      DEF_COMP_BUF_SIZE_JPEG
    else if width * height > 1280 * 720 then
      DEF_COMP_BUF_SIZE_GREATER_720P
    else
      DEF_COMP_BUF_SIZE_720P_OR_LESS
  else if fmt.fourcc = V4L2_PIX_FMT_NV12_COL128 then
    ALIGN width 128 * stride
  else
    stride * height * fmt.size_multiplier_x2 / 2

/-- Spec-side definition of `strideFor`, transcribed from the spec's words:
for standard formats `align(width * depth/8, fmt.strideAlign[role])`; the
packed-column format computes stride as `height*3/2` regardless of width. -/
def strideFor (width height : Nat) (fmt : Fmt) (role : Role) : Nat :=
  if fmt.fourcc = V4L2_PIX_FMT_NV12_COL128 then
    height * 3 / 2
  else
    ALIGN (width * fmt.depth / 8) (fmt.bytesperline_align role)

/-! ### V4L2 UAPI constants used by the driver -/

def V4L2_FIELD_ANY : Nat := 0
def V4L2_FIELD_NONE : Nat := 1
def V4L2_FIELD_TOP : Nat := 2
def V4L2_FIELD_BOTTOM : Nat := 3
def V4L2_FIELD_INTERLACED : Nat := 4
def V4L2_FIELD_INTERLACED_TB : Nat := 8
def V4L2_FIELD_INTERLACED_BT : Nat := 9

def V4L2_BUF_FLAG_KEYFRAME : Nat := 8
def V4L2_BUF_FLAG_LAST : Nat := 1048576

def V4L2_COLORSPACE_SMPTE170M : Nat := 1
def V4L2_COLORSPACE_SMPTE240M : Nat := 2
def V4L2_COLORSPACE_REC709 : Nat := 3
def V4L2_COLORSPACE_JPEG : Nat := 7
def V4L2_COLORSPACE_SRGB : Nat := 8
def V4L2_COLORSPACE_OPRGB : Nat := 9
def V4L2_COLORSPACE_BT2020 : Nat := 10
def V4L2_COLORSPACE_RAW : Nat := 11
def V4L2_COLORSPACE_DCI_P3 : Nat := 12

def V4L2_XFER_FUNC_709 : Nat := 1
def V4L2_XFER_FUNC_SRGB : Nat := 2
def V4L2_XFER_FUNC_OPRGB : Nat := 3
def V4L2_XFER_FUNC_SMPTE240M : Nat := 4
def V4L2_XFER_FUNC_NONE : Nat := 5
def V4L2_XFER_FUNC_DCI_P3 : Nat := 6

def V4L2_YCBCR_ENC_601 : Nat := 1
def V4L2_YCBCR_ENC_709 : Nat := 2
def V4L2_YCBCR_ENC_BT2020 : Nat := 6
def V4L2_YCBCR_ENC_SMPTE240M : Nat := 8

def V4L2_QUANTIZATION_FULL_RANGE : Nat := 1
def V4L2_QUANTIZATION_LIM_RANGE : Nat := 2

/-- `V4L2_MAP_XFER_FUNC_DEFAULT(colsp)` from videodev2.h. -/
def V4L2_MAP_XFER_FUNC_DEFAULT (colsp : Nat) : Nat :=
  if colsp = V4L2_COLORSPACE_OPRGB then V4L2_XFER_FUNC_OPRGB
  else if colsp = V4L2_COLORSPACE_SMPTE240M then V4L2_XFER_FUNC_SMPTE240M
  else if colsp = V4L2_COLORSPACE_DCI_P3 then V4L2_XFER_FUNC_DCI_P3
  else if colsp = V4L2_COLORSPACE_RAW then V4L2_XFER_FUNC_NONE
  else if colsp = V4L2_COLORSPACE_SRGB ∨ colsp = V4L2_COLORSPACE_JPEG then V4L2_XFER_FUNC_SRGB
  else V4L2_XFER_FUNC_709

/-- `V4L2_MAP_YCBCR_ENC_DEFAULT(colsp)` from videodev2.h. -/
def V4L2_MAP_YCBCR_ENC_DEFAULT (colsp : Nat) : Nat :=
  if colsp = V4L2_COLORSPACE_REC709 ∨ colsp = V4L2_COLORSPACE_DCI_P3 then V4L2_YCBCR_ENC_709
  else if colsp = V4L2_COLORSPACE_BT2020 then V4L2_YCBCR_ENC_BT2020
  else if colsp = V4L2_COLORSPACE_SMPTE240M then V4L2_YCBCR_ENC_SMPTE240M
  else V4L2_YCBCR_ENC_601

/-- `V4L2_MAP_QUANTIZATION_DEFAULT(is_rgb_or_hsv, colsp, ycbcr_enc)`. -/
def V4L2_MAP_QUANTIZATION_DEFAULT (is_rgb : Bool) (colsp _ycbcr_enc : Nat) : Nat :=
  if is_rgb ∨ colsp = V4L2_COLORSPACE_JPEG then V4L2_QUANTIZATION_FULL_RANGE
  else V4L2_QUANTIZATION_LIM_RANGE

/-! ### MMAL buffer header and event constants (vchiq-mmal headers) -/

def MMAL_BUFFER_HEADER_FLAG_EOS : Nat := 1
def MMAL_BUFFER_HEADER_FLAG_FRAME_END : Nat := 4
def MMAL_BUFFER_HEADER_FLAG_KEYFRAME : Nat := 8
def MMAL_BUFFER_HEADER_FLAG_CORRUPTED : Nat := 512
def MMAL_BUFFER_HEADER_VIDEO_FLAG_INTERLACED : Nat := 65536
def MMAL_BUFFER_HEADER_VIDEO_FLAG_TOP_FIELD_FIRST : Nat := 262144

/-- `MMAL_TIME_UNKNOWN` is `(s64)(1 << 63)`, i.e. the most negative s64. -/
def MMAL_TIME_UNKNOWN : Int := -(2 ^ 63)

def MMAL_ES_TYPE_VIDEO : Nat := 3

def MMAL_COLOR_SPACE_ITUR_BT601 : Nat := v4l2_fourcc 'Y' '6' '0' '1'
def MMAL_COLOR_SPACE_ITUR_BT709 : Nat := v4l2_fourcc 'Y' '7' '0' '9'

def MMAL_INTERLACE_PROGRESSIVE : Nat := 0
def MMAL_INTERLACE_FIELDS_INTERLEAVED_UPPER_FIRST : Nat := 3
def MMAL_INTERLACE_FIELDS_INTERLEAVED_LOWER_FIRST : Nat := 4

/-- V4L2 fourccs of the 4:2:2 packed formats named in `color_mmal2v4l`
(their MMAL encoding ids use the same fourcc values). -/
def V4L2_PIX_FMT_YUYV : Nat := v4l2_fourcc 'Y' 'U' 'Y' 'V'
def V4L2_PIX_FMT_YVYU : Nat := v4l2_fourcc 'Y' 'V' 'Y' 'U'
def V4L2_PIX_FMT_UYVY : Nat := v4l2_fourcc 'U' 'Y' 'V' 'Y'
def V4L2_PIX_FMT_VYUY : Nat := v4l2_fourcc 'V' 'Y' 'U' 'Y'

/-! ### Buffer exchange: vb2 to MMAL header conversion -/

/-- The fields of `struct vb2_v4l2_buffer` read by `vb2_to_mmal_buffer`:
the v4l2 buffer flags, the field value, plane 0's `bytesused` and the
64-bit nanosecond timestamp. -/
structure Vb2V4l2Buffer where
  flags : Nat
  field : Nat
  bytesused : Nat
  timestamp : Nat

/-- The fields of `struct mmal_buffer` written by `vb2_to_mmal_buffer`. -/
structure MmalBuf where
  mmal_flags : Nat
  length : Nat
  pts : Nat
  dts : Int

/-- `vb2_to_mmal_buffer(buf, vb2)`: converts a vb2 buffer header to the MMAL
buffer header submitted to the VPU.  `field_override` is the module
parameter of the same name (0 by default). -/
def vb2_to_mmal_buffer (field_override : Nat) (vb2 : Vb2V4l2Buffer) : MmalBuf :=
  let flags : Nat := 0
  let flags := if vb2.flags &&& V4L2_BUF_FLAG_KEYFRAME ≠ 0 then
      flags ||| MMAL_BUFFER_HEADER_FLAG_KEYFRAME
    else flags
  let flags := flags ||| MMAL_BUFFER_HEADER_FLAG_FRAME_END
  let length := vb2.bytesused
  let flags := if length = 0 ∨ vb2.flags &&& V4L2_BUF_FLAG_LAST ≠ 0 then
      flags ||| MMAL_BUFFER_HEADER_FLAG_EOS
    else flags
  let pts := vb2.timestamp / 1000
  let fv := if field_override ≠ 0 then field_override else vb2.field
  let flags := if fv = V4L2_FIELD_INTERLACED_BT then
      flags ||| MMAL_BUFFER_HEADER_VIDEO_FLAG_INTERLACED
    else if fv = V4L2_FIELD_INTERLACED_TB then
      flags ||| (MMAL_BUFFER_HEADER_VIDEO_FLAG_INTERLACED |||
                 MMAL_BUFFER_HEADER_VIDEO_FLAG_TOP_FIELD_FIRST)
    else flags
  { mmal_flags := flags, length := length, pts := pts, dts := MMAL_TIME_UNKNOWN }

/-! ### Session and queue state -/

/-- The two mem2mem queue directions the driver can address
(`V4L2_BUF_TYPE_VIDEO_OUTPUT_MPLANE` selects `q_data[V4L2_M2M_SRC]`,
`V4L2_BUF_TYPE_VIDEO_CAPTURE_MPLANE` selects `q_data[V4L2_M2M_DST]`). -/
inductive BufType where
  | OUTPUT_MPLANE
  | CAPTURE_MPLANE
deriving DecidableEq

/-- `struct bcm2835_codec_q_data`: the per-direction queue state.  The
embedded EOS `m2m_mmal_buffer` is not modelled (no claim touches its
contents); its debug-only `eos_buffer_in_use` flag is likewise omitted. -/
structure QData where
  bytesperline : Nat
  height : Nat
  crop_width : Nat
  crop_height : Nat
  selection_set : Bool
  aspect_ratio_num : Nat
  aspect_ratio_denom : Nat
  field : Nat
  sizeimage : Nat
  sequence : Nat
  fmt : Fmt

/-- The negotiation-relevant fields of `struct bcm2835_codec_ctx`:
the device role, the shared colorimetry parameters and the two queue
states. -/
structure Ctx where
  role : Role
  colorspace : Nat
  ycbcr_enc : Nat
  xfer_func : Nat
  quant : Nat
  bitrate : Int
  framerate_num : Nat
  framerate_denom : Nat
  q_src : QData
  q_dst : QData

/-- `get_q_data(ctx, type)` restricted to the two valid mplane queue types. -/
def get_q_data (ctx : Ctx) (typ : BufType) : QData :=
  match typ with
  | BufType.OUTPUT_MPLANE => ctx.q_src
  | BufType.CAPTURE_MPLANE => ctx.q_dst

/-- Store back the queue state selected by `typ` (the C code mutates the
struct through the pointer returned by `get_q_data`). -/
def set_q_data (ctx : Ctx) (typ : BufType) (q : QData) : Ctx :=
  match typ with
  | BufType.OUTPUT_MPLANE => { ctx with q_src := q }
  | BufType.CAPTURE_MPLANE => { ctx with q_dst := q }

/-- `color_mmal2v4l(ctx, encoding, color_space)`: classify the colourspace
reported by the VPU into the V4L2 colorimetry quadruple. -/
def color_mmal2v4l (ctx : Ctx) (encoding color_space : Nat) : Ctx :=
  let colorspace :=
    if encoding = MMAL_ENCODING_I420 ∨ encoding = MMAL_ENCODING_YV12 ∨
       encoding = MMAL_ENCODING_NV12 ∨ encoding = MMAL_ENCODING_NV21 ∨
       encoding = V4L2_PIX_FMT_YUYV ∨ encoding = V4L2_PIX_FMT_YVYU ∨
       encoding = V4L2_PIX_FMT_UYVY ∨ encoding = V4L2_PIX_FMT_VYUY then
      if color_space = MMAL_COLOR_SPACE_ITUR_BT601 then V4L2_COLORSPACE_SMPTE170M
      else if color_space = MMAL_COLOR_SPACE_ITUR_BT709 then V4L2_COLORSPACE_REC709
      else ctx.colorspace
    else
      V4L2_COLORSPACE_SRGB
  let xfer_func := V4L2_MAP_XFER_FUNC_DEFAULT colorspace
  let ycbcr_enc := V4L2_MAP_YCBCR_ENC_DEFAULT colorspace
  let is_rgb := colorspace = V4L2_COLORSPACE_SRGB
  let quant := V4L2_MAP_QUANTIZATION_DEFAULT (decide is_rgb) colorspace ycbcr_enc
  { ctx with colorspace := colorspace, xfer_func := xfer_func,
             ycbcr_enc := ycbcr_enc, quant := quant }

/-! ### Dynamic format-changed event handling -/

/-- The fields of `struct mmal_msg_event_format_changed` read by
`handle_fmt_changed`. -/
structure FormatChangedEvent where
  es_type : Nat
  encoding : Nat
  width : Nat
  height : Nat
  crop_width : Nat
  crop_height : Nat
  color_space : Nat
  par_num : Nat
  par_den : Nat
  buffer_size_min : Nat

/-- Result of `handle_fmt_changed`: the updated session state, whether the
capture vb2 queue's `last_buffer_dequeued` flag was raised, and whether a
source-change event was queued to the client. -/
structure FmtChangedResult where
  ctx : Ctx
  last_buffer_dequeued : Bool
  res_chg_event : Bool

/-- `handle_fmt_changed(ctx, mmal_buf)`.  The result of the
`MMAL_PARAMETER_VIDEO_INTERLACE_TYPE` parameter query on the output port is
an input: `some mode` when the get succeeded, `none` when it failed.
`cap_streaming` is `vq->streaming` of the capture queue. -/
def handle_fmt_changed (ctx : Ctx) (ev : FormatChangedEvent)
    (interlace : Option Nat) (cap_streaming : Bool) : FmtChangedResult :=
  if ev.es_type ≠ MMAL_ES_TYPE_VIDEO then
    { ctx := ctx, last_buffer_dequeued := false, res_chg_event := false }
  else
    let q := ctx.q_dst
    let q := { q with
      crop_width := ev.crop_width,
      crop_height := ev.crop_height,
      selection_set := true,
      bytesperline := get_bytesperline ev.width ev.height q.fmt ctx.role }
    let q := { q with height := ev.height, sizeimage := ev.buffer_size_min }
    let ctx := if ev.color_space ≠ 0 then
        color_mmal2v4l ctx ev.encoding ev.color_space
      else ctx
    let q := { q with aspect_ratio_num := ev.par_num,
                      aspect_ratio_denom := ev.par_den }
    let q := { q with field :=
      match interlace with
      | some mode =>
        if mode = MMAL_INTERLACE_FIELDS_INTERLEAVED_UPPER_FIRST then
          V4L2_FIELD_INTERLACED_TB
        else if mode = MMAL_INTERLACE_FIELDS_INTERLEAVED_LOWER_FIRST then
          V4L2_FIELD_INTERLACED_BT
        else V4L2_FIELD_NONE
      | none => V4L2_FIELD_NONE }
    { ctx := { ctx with q_dst := q },
      last_buffer_dequeued := cap_streaming,
      res_chg_event := true }

/-! ### Format negotiation: try phase -/

/-- The fields of `struct v4l2_format`'s `fmt.pix_mp` (with plane 0's
`plane_fmt` flattened in) that the driver reads or writes. -/
structure PixFormatMp where
  width : Nat
  height : Nat
  pixelformat : Nat
  field : Nat
  colorspace : Nat
  num_planes : Nat
  bytesperline : Nat
  sizeimage : Nat
  ycbcr_enc : Nat
  quantization : Nat
  xfer_func : Nat

/-- Width clamping section of `vidioc_try_fmt`: clamp to the device
maximum, then for uncompressed formats clamp to the 32-pixel minimum. -/
def try_fmt_width (role : Role) (fmt : Fmt) (w : Nat) : Nat :=
  let w := if w > dev_max_w role then dev_max_w role else w
  if fmt.flags &&& V4L2_FMT_FLAG_COMPRESSED = 0 then
    if w < MIN_W then MIN_W else w
  else w

/-- Height clamping section of `vidioc_try_fmt`: clamp to the device
maximum, then for uncompressed formats clamp to the 32-line minimum and,
for the decode and image-encode roles, align up to 16 lines. -/
def try_fmt_height (role : Role) (fmt : Fmt) (h : Nat) : Nat :=
  let h := if h > dev_max_h role then dev_max_h role else h
  if fmt.flags &&& V4L2_FMT_FLAG_COMPRESSED = 0 then
    let h := if h < MIN_H then MIN_H else h
    if role = Role.DECODE ∨ role = Role.ENCODE_IMAGE then ALIGN h 16 else h
  else h

/-- Bytesperline section of `vidioc_try_fmt`: raise the caller's value to
the computed minimum, then re-align it to the format's per-role stride
alignment. -/
def try_fmt_bpl (role : Role) (fmt : Fmt) (w h bpl : Nat) : Nat :=
  let min_bytesperline := get_bytesperline w h fmt role
  let bpl := if bpl < min_bytesperline then min_bytesperline else bpl
  ALIGN bpl (fmt.bytesperline_align role)

/-- Sizeimage section of `vidioc_try_fmt`: uncompressed formats always get
the computed size; compressed formats keep a caller value that is at least
the computed size. -/
def try_fmt_size (fmt : Fmt) (bpl w h size : Nat) : Nat :=
  let sizeimage := get_sizeimage bpl w h fmt
  if fmt.flags &&& V4L2_FMT_FLAG_COMPRESSED = 0 ∨ size < sizeimage then
    sizeimage
  else size

/-- Field normalization section of `vidioc_try_fmt`. -/
def try_fmt_field (role : Role) (field : Nat) : Nat :=
  if role = Role.DECODE ∨ role = Role.DEINTERLACE then
    if field = V4L2_FIELD_INTERLACED then V4L2_FIELD_INTERLACED
    else if field = V4L2_FIELD_TOP ∨ field = V4L2_FIELD_BOTTOM ∨
            field = V4L2_FIELD_INTERLACED_TB then V4L2_FIELD_INTERLACED_TB
    else if field = V4L2_FIELD_INTERLACED_BT then V4L2_FIELD_INTERLACED_BT
    else V4L2_FIELD_NONE
  else
    V4L2_FIELD_NONE

/-- `vidioc_try_fmt(ctx, f, fmt)`.  Always succeeds (returns the corrected
format; the C function returns 0 unconditionally). -/
def vidioc_try_fmt (role : Role) (f : PixFormatMp) (fmt : Fmt) : PixFormatMp :=
  let w := try_fmt_width role fmt f.width
  let h := try_fmt_height role fmt f.height
  let bpl := try_fmt_bpl role fmt w h f.bytesperline
  let size := try_fmt_size fmt bpl w h f.sizeimage
  let field := try_fmt_field role f.field
  { f with width := w, height := h, num_planes := 1,
           bytesperline := bpl, sizeimage := size, field := field }

/-- `find_format_pix_fmt`: first catalog entry of the direction's supported
list whose fourcc matches, if any. -/
def find_format_pix_fmt (pix_fmt : Nat) (fmts : List Fmt) : Option Fmt :=
  fmts.find? (fun fmt => fmt.fourcc == pix_fmt)

/-- `get_default_format`: entry 0 of the direction's supported list.  The C
code indexes unconditionally; the empty-list case is the `none` result. -/
def get_default_format (fmts : List Fmt) : Option Fmt :=
  fmts.head?

/-- `vidioc_try_fmt_vid_cap` / the shared shape of both per-direction
wrappers: resolve the requested pixelformat against the supported list,
silently substituting the direction's default format if it is absent, then
run the core `vidioc_try_fmt`.  `none` models the C NULL-pointer
dereference that would occur if the supported list were empty. -/
def vidioc_try_fmt_dir (role : Role) (fmts : List Fmt) (f : PixFormatMp) :
    Option (Int × PixFormatMp) :=
  match find_format_pix_fmt f.pixelformat fmts with
  | some fmt => some (0, vidioc_try_fmt role f fmt)
  | none =>
    match get_default_format fmts with
    | none => none
    | some d =>
      let f := { f with pixelformat := d.fourcc }
      match find_format_pix_fmt f.pixelformat fmts with
      | some fmt => some (0, vidioc_try_fmt role f fmt)
      | none => none

/-- `vidioc_try_fmt_vid_cap(file, priv, f)`. -/
def vidioc_try_fmt_vid_cap (role : Role) (capture_fmts : List Fmt)
    (f : PixFormatMp) : Option (Int × PixFormatMp) :=
  vidioc_try_fmt_dir role capture_fmts f

/-- `vidioc_try_fmt_vid_out(file, priv, f)`: same as the capture variant on
the output list, except a zero colorspace is defaulted from the session
before the core call. -/
def vidioc_try_fmt_vid_out (role : Role) (ctx_colorspace : Nat)
    (output_fmts : List Fmt) (f : PixFormatMp) : Option (Int × PixFormatMp) :=
  match find_format_pix_fmt f.pixelformat output_fmts with
  | some fmt =>
    let f := if f.colorspace = 0 then { f with colorspace := ctx_colorspace } else f
    some (0, vidioc_try_fmt role f fmt)
  | none =>
    match get_default_format output_fmts with
    | none => none
    | some d =>
      let f := { f with pixelformat := d.fourcc }
      match find_format_pix_fmt f.pixelformat output_fmts with
      | some fmt =>
        let f := if f.colorspace = 0 then { f with colorspace := ctx_colorspace } else f
        some (0, vidioc_try_fmt role f fmt)
      | none => none

/-! ### MMAL port model -/

/-- One half of `struct vchiq_mmal_port`'s buffer requirements
(`current_buffer` / `minimum_buffer` / `recommended_buffer`). -/
structure PortBufferCfg where
  num : Nat
  size : Nat
deriving DecidableEq

/-- The elementary-stream video format fields of a port written by
`setup_mmal_port_format`. -/
structure PortEsFormat where
  encoding : Nat
  flags : Nat
  bitrate : Int
  width : Nat
  height : Nat
  crop_x : Nat
  crop_y : Nat
  crop_width : Nat
  crop_height : Nat
  frame_rate_num : Nat
  frame_rate_denom : Nat
deriving DecidableEq

/-- `MMAL_ES_FORMAT_FLAG_COL_FMTS_WIDTH_IS_COL_STRIDE` (vchiq-mmal header;
the claims rely only on the flag being a fixed nonzero constant). -/
def MMAL_ES_FORMAT_FLAG_COL_FMTS_WIDTH_IS_COL_STRIDE : Nat := 2

/-- The fields of `struct vchiq_mmal_port` the driver reads or writes:
the enable flag, the buffer-count/size configuration, the VPU minimum, the
atomic in-flight counter and the es format. -/
structure Port where
  enabled : Bool
  current_buffer : PortBufferCfg
  minimum_buffer : PortBufferCfg
  buffers_with_vpu : Nat
  format : PortEsFormat
deriving DecidableEq

/-- `struct vchiq_mmal_component`: input port 0 and output port 0. -/
structure Component where
  input : Port
  output : Port
deriving DecidableEq

/-- `get_port_data(ctx, type)` on an existing component. -/
def get_port_of (c : Component) (typ : BufType) : Port :=
  match typ with
  | BufType.OUTPUT_MPLANE => c.input
  | BufType.CAPTURE_MPLANE => c.output

/-- Store back the port selected by `typ`. -/
def set_port_of (c : Component) (typ : BufType) (p : Port) : Component :=
  match typ with
  | BufType.OUTPUT_MPLANE => { c with input := p }
  | BufType.CAPTURE_MPLANE => { c with output := p }

/-- `setup_mmal_port_format(ctx, q_data, port)`: translate the queue state
into the port's es format and buffer size. -/
def setup_mmal_port_format (ctx : Ctx) (q_data : QData) (port : Port) : Port :=
  let es :=
    if q_data.fmt.flags &&& V4L2_FMT_FLAG_COMPRESSED = 0 then
      if q_data.fmt.mmal_fmt ≠ MMAL_ENCODING_YUVUV128 then
        { port.format with
          encoding := q_data.fmt.mmal_fmt
          flags := 0
          width := (q_data.bytesperline <<< 3) / q_data.fmt.depth
          height := q_data.height
          crop_width := q_data.crop_width
          crop_height := q_data.crop_height
          frame_rate_num := ctx.framerate_num
          frame_rate_denom := ctx.framerate_denom }
      else
        { port.format with
          encoding := q_data.fmt.mmal_fmt
          flags := MMAL_ES_FORMAT_FLAG_COL_FMTS_WIDTH_IS_COL_STRIDE
          width := q_data.bytesperline
          height := q_data.height
          crop_width := q_data.crop_width
          crop_height := q_data.crop_height
          frame_rate_num := ctx.framerate_num
          frame_rate_denom := ctx.framerate_denom }
    else
      if ctx.role = Role.DECODE then
        { port.format with
          encoding := q_data.fmt.mmal_fmt
          flags := 0
          width := 0
          height := 0
          crop_width := 0
          crop_height := 0 }
      else
        { port.format with
          encoding := q_data.fmt.mmal_fmt
          flags := 0
          width := q_data.crop_width
          height := q_data.height
          crop_width := q_data.crop_width
          crop_height := q_data.crop_height
          bitrate := ctx.bitrate
          frame_rate_num := ctx.framerate_num
          frame_rate_denom := ctx.framerate_denom }
  let es := { es with crop_x := 0, crop_y := 0 }
  { port with format := es,
              current_buffer := { port.current_buffer with size := q_data.sizeimage } }

/-- Effect of `vchiq_mmal_port_disable` on the driver-visible port state:
the port is disabled, and because the VPU re-reads the port format on
disable, `current_buffer.num` is clobbered with a remote-chosen value
(`reread_num`) — which is exactly why the driver saves and restores the
count around every disable.  Outstanding buffers are returned
asynchronously through the callbacks, so `buffers_with_vpu` is untouched
here. -/
def vchiq_mmal_port_disable (port : Port) (reread_num : Nat) : Port :=
  { port with enabled := false,
              current_buffer := { port.current_buffer with num := reread_num } }

/-- `bcm2835_codec_flush_buffers(ctx, port)`: if the port still holds
buffers, block on the session completion for at most `COMPLETE_TIMEOUT`.
`drain_completes` says whether the wait finished before the timeout (a
timeout is logged and is not fatal).  Returns the port and whether a wait
happened. -/
def bcm2835_codec_flush_buffers (port : Port) (drain_completes : Bool) :
    Port × Bool :=
  if port.buffers_with_vpu ≠ 0 then
    (if drain_completes then { port with buffers_with_vpu := 0 } else port, true)
  else
    (port, false)

/-! ### Format negotiation: set phase -/

/-- Error numbers (`-EBUSY`, `-EINVAL` are returned negated). -/
def EBUSY : Int := 16
def EINVAL : Int := 22

/-- Remote-side outcomes of the MMAL calls made by `vidioc_s_fmt` and
`vidioc_s_selection`: the value `current_buffer.num` takes when a port
disable re-reads the format, and the return codes of
`vchiq_mmal_port_set_format` and `vchiq_mmal_port_enable` (0 on success). -/
structure MmalEnv where
  disable_reread_num : Nat
  set_format_ret : Int
  set_format_dst_ret : Int
  port_enable_ret : Int

/-- `vidioc_s_fmt(ctx, f, requested_height)`.  `vq_busy` is
`vb2_is_busy(vq)`; `comp` is `ctx->component` (`none` before the lazy
component creation).  The result is the return code with the updated
session state and component; `none` models the NULL dereference the C code
would perform if the (try_fmt-corrected) pixelformat were not in the
supported list. -/
def vidioc_s_fmt (env : MmalEnv) (fmts_out fmts_cap : List Fmt) (ctx : Ctx)
    (comp : Option Component) (f : PixFormatMp) (typ : BufType)
    (requested_height : Nat) (vq_busy : Bool) :
    Option (Int × Ctx × Option Component) :=
  if vq_busy then
    some (-EBUSY, ctx, comp)
  else
    match find_format_pix_fmt f.pixelformat
        (if typ = BufType.CAPTURE_MPLANE then fmts_cap else fmts_out) with
    | none => none
    | some fmt =>
      let q := get_q_data ctx typ
      let q := { q with fmt := fmt, crop_width := f.width, height := f.height }
      let q := if ¬q.selection_set ∨ fmt.flags &&& V4L2_FMT_FLAG_COMPRESSED ≠ 0 then
          { q with crop_height := requested_height }
        else q
      let ctx := { ctx with colorspace := f.colorspace, xfer_func := f.xfer_func,
                            ycbcr_enc := f.ycbcr_enc, quant := f.quantization }
      let q := { q with field := f.field, bytesperline := f.bytesperline,
                        sizeimage := f.sizeimage }
      let ctx := set_q_data ctx typ q
      let (ctx, update_capture_port) :=
        if (ctx.role = Role.DECODE ∨ ctx.role = Role.ENCODE_IMAGE) ∧
           fmt.flags &&& V4L2_FMT_FLAG_COMPRESSED ≠ 0 ∧
           q.crop_width ≠ 0 ∧ q.height ≠ 0 then
          let q_dst := ctx.q_dst
          let q_dst := { q_dst with
            crop_width := q.crop_width,
            crop_height := q.crop_height,
            height := ALIGN q.crop_height 16 }
          let q_dst := { q_dst with
            bytesperline := get_bytesperline f.width f.height q_dst.fmt ctx.role }
          let q_dst := { q_dst with
            sizeimage := get_sizeimage q_dst.bytesperline q_dst.crop_width
                           q_dst.height q_dst.fmt }
          ({ ctx with q_dst := q_dst }, true)
        else (ctx, false)
      match comp with
      | none => some (0, ctx, none)
      | some c =>
        let port := get_port_of c typ
        let (port, reenable_port) :=
          if port.enabled then
            let num_buffers := port.current_buffer.num
            let port := vchiq_mmal_port_disable port env.disable_reread_num
            let port := { port with
              current_buffer := { port.current_buffer with num := num_buffers } }
            (port, true)
          else (port, false)
        let port := setup_mmal_port_format ctx q port
        let ret := if env.set_format_ret ≠ 0 then -EINVAL else 0
        let (port, ret) :=
          if reenable_port then
            ({ port with enabled := true }, env.port_enable_ret)
          else (port, ret)
        let c := set_port_of c typ port
        let (c, ret) :=
          if update_capture_port then
            let port_dst := setup_mmal_port_format ctx ctx.q_dst c.output
            ({ c with output := port_dst },
             if env.set_format_dst_ret ≠ 0 then -EINVAL else 0)
          else (c, ret)
        some (ret, ctx, some c)

/-! ### Selection (crop/compose) negotiation -/

def V4L2_SEL_TGT_CROP : Nat := 0
def V4L2_SEL_TGT_CROP_DEFAULT : Nat := 1
def V4L2_SEL_TGT_CROP_BOUNDS : Nat := 2
def V4L2_SEL_TGT_COMPOSE : Nat := 256
def V4L2_SEL_TGT_COMPOSE_DEFAULT : Nat := 257
def V4L2_SEL_TGT_COMPOSE_BOUNDS : Nat := 258

/-- Selection ioctls see the non-MPLANE buffer types (the V4L2 core
converts). -/
def V4L2_BUF_TYPE_VIDEO_CAPTURE : Nat := 1
def V4L2_BUF_TYPE_VIDEO_OUTPUT : Nat := 2

/-- `struct v4l2_rect`. -/
structure V4l2Rect where
  left : Int
  top : Int
  width : Nat
  height : Nat
deriving DecidableEq

/-- The fields of `struct v4l2_selection` used by the driver. -/
structure V4l2Selection where
  typ : Nat
  target : Nat
  r : V4l2Rect

/-- `vidioc_s_selection(file, priv, s)`.  Returns the code, the updated
session state, the (possibly clipped) selection echoed back to the caller,
and the updated component. -/
def vidioc_s_selection (env : MmalEnv) (ctx : Ctx) (comp : Option Component)
    (s : V4l2Selection) : Int × Ctx × V4l2Selection × Option Component :=
  let dir? :=
    if s.typ = V4L2_BUF_TYPE_VIDEO_CAPTURE then
      if ctx.role = Role.ENCODE ∨ ctx.role = Role.ENCODE_IMAGE then none
      else some BufType.CAPTURE_MPLANE
    else if s.typ = V4L2_BUF_TYPE_VIDEO_OUTPUT then
      if ctx.role = Role.DECODE then none
      else some BufType.OUTPUT_MPLANE
    else none
  match dir? with
  | none => (-EINVAL, ctx, s, comp)
  | some dir =>
    let q_data := get_q_data ctx dir
    let apply_clip : V4l2Selection × QData :=
      let r := { s.r with
        left := 0, top := 0,
        width := min s.r.width q_data.crop_width,
        height := min s.r.height q_data.height }
      (⟨s.typ, s.target, r⟩,
       { q_data with crop_width := r.width, crop_height := r.height,
                     selection_set := true })
    let result : Option (V4l2Selection × QData) :=
      match ctx.role with
      | Role.DECODE =>
        if s.target = V4L2_SEL_TGT_COMPOSE then some apply_clip else none
      | Role.ENCODE =>
        if s.target = V4L2_SEL_TGT_CROP then some apply_clip else none
      | Role.ENCODE_IMAGE =>
        if s.target = V4L2_SEL_TGT_CROP then some apply_clip else none
      | Role.ISP =>
        if s.typ = V4L2_BUF_TYPE_VIDEO_CAPTURE then
          if s.target = V4L2_SEL_TGT_COMPOSE then some apply_clip else none
        else
          if s.target = V4L2_SEL_TGT_CROP then some apply_clip else none
      | Role.DEINTERLACE =>
        if s.typ = V4L2_BUF_TYPE_VIDEO_CAPTURE then
          if s.target = V4L2_SEL_TGT_COMPOSE then some apply_clip else none
        else
          if s.target = V4L2_SEL_TGT_CROP then some apply_clip else none
    match result with
    | none => (-EINVAL, ctx, s, comp)
    | some (s, q_data) =>
      let ctx := set_q_data ctx dir q_data
      match comp with
      | none => (0, ctx, s, none)
      | some c =>
        let port := get_port_of c dir
        let port := setup_mmal_port_format ctx q_data port
        let c := set_port_of c dir port
        if env.set_format_ret ≠ 0 then (-EINVAL, ctx, s, some c)
        else (0, ctx, s, some c)

/-! ### Lifecycle: start streaming -/

/-- Observable outcome of `bcm2835_codec_start_streaming`, combining the
final driver-visible state with a trace of what the call did:
whether the already-enabled port was disabled first, whether the
in-flight drain ran and whether it blocked, the buffer count captured
before the disable (and restored after it), and whether the port format
was re-pushed because the buffer count changed. -/
structure StartStreamingResult where
  component_enabled : Bool
  input_port : Port
  output_port : Port
  did_disable : Bool
  did_flush : Bool
  flush_waited : Bool
  num_restored : Option Nat
  did_set_format : Bool

/-- The disable/drain/restore sequence `bcm2835_codec_start_streaming`
runs when it finds the port already enabled: remember the configured
buffer count, disable the port (which lets the VPU clobber the count),
drain in-flight buffers with the bounded timeout, and restore the saved
count. -/
def start_streaming_reset_port (port : Port) (reread_num : Nat)
    (drain_completes : Bool) : Port :=
  if port.enabled then
    let num_buffers := port.current_buffer.num
    let port := vchiq_mmal_port_disable port reread_num
    let port := (bcm2835_codec_flush_buffers port drain_completes).1
    { port with current_buffer := { port.current_buffer with num := num_buffers } }
  else port

/-- The buffer-count raise in `bcm2835_codec_start_streaming`: lift the
client's requested count to the port minimum, then make sure the
configured count is at least that plus one (the reserved EOS slot),
re-pushing the port format when the count changes. -/
def start_streaming_raise_count (port : Port) (count : Nat) : Port :=
  let count := if count < port.minimum_buffer.num then port.minimum_buffer.num
    else count
  if port.current_buffer.num < count + 1 then
    { port with current_buffer := { port.current_buffer with num := count + 1 } }
  else port

/-- `bcm2835_codec_start_streaming(q, count)`.  `typ` is the queue type,
`count` the client's requested buffer count, `reread_num` the value the
VPU's format re-read puts in `current_buffer.num` on disable, and
`drain_completes` whether a drain wait finishes inside the timeout.  The
trace fields record the phases the call went through: the disable and the
drain run exactly when the port was found enabled (and the drain blocks
exactly when buffers are outstanding), `num_restored` is the count
observed before the disable, and `did_set_format` whether the count raise
re-pushed the port format. -/
def bcm2835_codec_start_streaming (role : Role) (typ : BufType) (count : Nat)
    (component_enabled : Bool) (ip op : Port) (reread_num : Nat)
    (drain_completes : Bool) : StartStreamingResult :=
  let component_enabled := if ¬component_enabled then true else component_enabled
  let port := match typ with
    | BufType.OUTPUT_MPLANE => ip
    | BufType.CAPTURE_MPLANE => op
  let did_disable := port.enabled
  let did_flush := port.enabled
  let flush_waited := port.enabled &&
    decide ((vchiq_mmal_port_disable port reread_num).buffers_with_vpu ≠ 0)
  let num_restored := if port.enabled then some port.current_buffer.num else none
  let port1 := start_streaming_reset_port port reread_num drain_completes
  let count2 := if count < port1.minimum_buffer.num then port1.minimum_buffer.num
    else count
  let did_set_format := decide (port1.current_buffer.num < count2 + 1)
  let port2 := start_streaming_raise_count port1 count
  match typ with
  | BufType.OUTPUT_MPLANE =>
    let op := if role = Role.DECODE ∧ ¬op.enabled then { op with enabled := true }
      else op
    { component_enabled := component_enabled,
      input_port := { port2 with enabled := true },
      output_port := op, did_disable := did_disable, did_flush := did_flush,
      flush_waited := flush_waited, num_restored := num_restored,
      did_set_format := did_set_format }
  | BufType.CAPTURE_MPLANE =>
    let port2 := if ¬port2.enabled then { port2 with enabled := true } else port2
    { component_enabled := component_enabled, input_port := ip,
      output_port := port2, did_disable := did_disable, did_flush := did_flush,
      flush_waited := flush_waited, num_restored := num_restored,
      did_set_format := did_set_format }

/-! ### Concrete fixtures used by the witness theorems -/

/-- A benign remote environment: every MMAL call succeeds and a disable
re-reads a buffer count of 0. -/
def env0 : MmalEnv where
  disable_reread_num := 0
  set_format_ret := 0
  set_format_dst_ret := 0
  port_enable_ret := 0

/-- A baseline queue state bound to the YUV420 catalog row. -/
def qdata0 : QData where
  bytesperline := 0
  height := 0
  crop_width := 0
  crop_height := 0
  selection_set := false
  aspect_ratio_num := 1
  aspect_ratio_denom := 1
  field := V4L2_FIELD_NONE
  sizeimage := 0
  sequence := 0
  fmt := fmt_yuv420

/-- A baseline decode session. -/
def ctx0 : Ctx where
  role := Role.DECODE
  colorspace := 0
  ycbcr_enc := 0
  xfer_func := 0
  quant := 0
  bitrate := 0
  framerate_num := 30
  framerate_denom := 1
  q_src := qdata0
  q_dst := qdata0

/-- Decode session whose capture queue shows a cropped 64×100 picture
inside a 112-line (16-aligned) buffer. -/
def ctx_c9 : Ctx :=
  { ctx0 with q_dst :=
    { qdata0 with crop_width := 64, crop_height := 100, height := 112 } }

/-- Compose-target selection request of the full 64×112 buffer, with a
nonzero offset that the driver must reset to the origin. -/
def sel_c9 : V4l2Selection where
  typ := V4L2_BUF_TYPE_VIDEO_CAPTURE
  target := V4L2_SEL_TGT_COMPOSE
  r := { left := 5, top := 7, width := 64, height := 112 }

/-- Decode session with the crop explicitly set on the capture queue. -/
def ctx_c3 : Ctx :=
  { ctx0 with q_dst :=
    { qdata0 with crop_width := 1920, crop_height := 1080, height := 1088,
                  selection_set := true } }

/-- A 1920×1080-in-1088 format-changed event without colorimetry. -/
def ev_c3 : FormatChangedEvent where
  es_type := MMAL_ES_TYPE_VIDEO
  encoding := MMAL_ENCODING_I420
  width := 1920
  height := 1088
  crop_width := 1920
  crop_height := 1080
  color_space := 0
  par_num := 1
  par_den := 1
  buffer_size_min := 3133440

/-- An event of a non-video elementary-stream type (audio is 2). -/
def ev_c3_audio : FormatChangedEvent :=
  { ev_c3 with es_type := 2 }

/-- A capture-queue format request matching `ctx_c3` (uncompressed
YUV420 at 1920×1088 with the spec-computed stride and size). -/
def f_c3 : PixFormatMp where
  width := 1920
  height := 1088
  pixelformat := V4L2_PIX_FMT_YUV420
  field := V4L2_FIELD_NONE
  colorspace := 0
  num_planes := 1
  bytesperline := 1920
  sizeimage := 3133440
  ycbcr_enc := 0
  quantization := 0
  xfer_func := 0

/-- A port es format with everything zeroed. -/
def pes0 : PortEsFormat where
  encoding := 0
  flags := 0
  bitrate := 0
  width := 0
  height := 0
  crop_x := 0
  crop_y := 0
  crop_width := 0
  crop_height := 0
  frame_rate_num := 0
  frame_rate_denom := 0

/-- An enabled port configured for 4 buffers with a VPU minimum of 2 and
no buffers in flight (the always-on decode output port shape). -/
def port_c6 : Port where
  enabled := true
  current_buffer := { num := 4, size := 0 }
  minimum_buffer := { num := 2, size := 0 }
  buffers_with_vpu := 0
  format := pes0

/-- A disabled port with nothing configured. -/
def port_idle : Port where
  enabled := false
  current_buffer := { num := 0, size := 0 }
  minimum_buffer := { num := 2, size := 0 }
  buffers_with_vpu := 0
  format := pes0

/-- A format request whose fourcc (0) is in no supported list. -/
def f_c10 : PixFormatMp :=
  { f_c3 with pixelformat := 0, width := 640, height := 480,
              bytesperline := 0, sizeimage := 0 }

/-! ### Helper lemmas -/

theorem shiftRight_one_eq (x : Nat) : x >>> 1 = x / 2 := by
  rw [Nat.shiftRight_eq_div_pow]

theorem shiftRight_three_eq (x : Nat) : x >>> 3 = x / 8 := by
  rw [Nat.shiftRight_eq_div_pow]

theorem ALIGN_zero (x : Nat) : ALIGN x 0 = 0 := by
  simp [ALIGN]

theorem le_ALIGN (x : Nat) {a : Nat} (ha : 0 < a) : x ≤ ALIGN x a := by
  unfold ALIGN
  rw [Nat.mul_comm]
  have h1 := Nat.div_add_mod (x + a - 1) a
  have h2 : (x + a - 1) % a < a := Nat.mod_lt _ ha
  omega

theorem ALIGN_mul_self (k a : Nat) : ALIGN (k * a) a = k * a := by
  rcases Nat.eq_zero_or_pos a with h | h
  · subst h; simp [ALIGN]
  · have h1 : k * a + a - 1 = a * k + (a - 1) := by
      rw [Nat.mul_comm]; omega
    unfold ALIGN
    rw [h1, Nat.mul_add_div h, Nat.div_eq_of_lt (by omega), Nat.add_zero,
        Nat.mul_comm]

theorem ALIGN_idem (x a : Nat) : ALIGN (ALIGN x a) a = ALIGN x a :=
  ALIGN_mul_self ((x + a - 1) / a) a

theorem ALIGN_mono {x y : Nat} (a : Nat) (h : x ≤ y) : ALIGN x a ≤ ALIGN y a :=
  Nat.mul_le_mul_right a (Nat.div_le_div_right (by omega))

theorem ALIGN_le_of_dvd {x m a : Nat} (hx : x ≤ m) (hd : a ∣ m) :
    ALIGN x a ≤ m := by
  obtain ⟨k, rfl⟩ := hd
  calc ALIGN x a ≤ ALIGN (a * k) a := ALIGN_mono a hx
    _ = a * k := by rw [Nat.mul_comm a k]; exact ALIGN_mul_self k a

/-! ### Claim theorems -/

/-- C4: for every width/height, format descriptor and role,
`get_bytesperline` returns `align(width * depth / 8,
fmt.bytesperline_align[role])` for every format other than the
packed-column format, and `height * 3 / 2` regardless of width for
`NV12_COL128` -- i.e. it coincides with the spec-side `strideFor`. -/
theorem get_bytesperline_eq_strideFor (width height : Nat) (fmt : Fmt)
    (role : Role) :
    get_bytesperline width height fmt role = strideFor width height fmt role := by
  unfold get_bytesperline strideFor
  rcases eq_or_ne fmt.fourcc V4L2_PIX_FMT_NV12_COL128 with h | h
  · rw [if_neg (not_not_intro h), if_pos h, shiftRight_one_eq]
  · rw [if_pos h, if_neg h, shiftRight_three_eq]

/-- C1: `get_sizeimage` coincides with the spec-side `bufferSizeFor`
(fixed JPEG allocation for the still-image compressed format; two fixed
tiers split strictly at 1280×720 for other compressed formats;
`alignUp(width,128) * stride` for `NV12_COL128`; `stride * height *
size_multiplier_x2 / 2` otherwise), and at exactly 1280×720 a compressed
non-JPEG format gets the small tier while 1920×1080 gets the large tier. -/
theorem get_sizeimage_eq_bufferSizeFor (bpl w h : Nat) (fmt : Fmt) :
    get_sizeimage bpl w h fmt = bufferSizeFor bpl w h fmt ∧
    (fmt.flags &&& V4L2_FMT_FLAG_COMPRESSED ≠ 0 →
     fmt.fourcc ≠ V4L2_PIX_FMT_JPEG →
      get_sizeimage bpl 1280 720 fmt = DEF_COMP_BUF_SIZE_720P_OR_LESS ∧
      get_sizeimage bpl 1920 1080 fmt = DEF_COMP_BUF_SIZE_GREATER_720P) := by
  refine ⟨?_, fun hc hj => ⟨?_, ?_⟩⟩
  · unfold get_sizeimage bufferSizeFor
    by_cases hc : fmt.flags &&& V4L2_FMT_FLAG_COMPRESSED ≠ 0
    · rw [if_pos hc, if_pos hc]
    · rw [if_neg hc, if_neg hc]
      rcases eq_or_ne fmt.fourcc V4L2_PIX_FMT_NV12_COL128 with h1 | h1
      · rw [if_neg (not_not_intro h1), if_pos h1]
      · rw [if_pos h1, if_neg h1, shiftRight_one_eq]
  · unfold get_sizeimage
    rw [if_pos hc, if_neg hj, if_neg (by norm_num)]
  · unfold get_sizeimage
    rw [if_pos hc, if_neg hj, if_pos (by norm_num)]

/-- Witness for C1: the tier split evaluated on the H264 catalog row. -/
theorem get_sizeimage_eq_bufferSizeFor_witness :
    get_sizeimage 0 1280 720 fmt_h264 = DEF_COMP_BUF_SIZE_720P_OR_LESS ∧
    get_sizeimage 0 1920 1080 fmt_h264 = DEF_COMP_BUF_SIZE_GREATER_720P :=
  (get_sizeimage_eq_bufferSizeFor 0 0 0 fmt_h264).2 (by decide) (by decide)

/-- C7: for every format descriptor and role, feeding
`get_bytesperline` into `get_sizeimage` is monotonic non-decreasing in
width and height. -/
theorem stride_size_monotone (fmt : Fmt) (role : Role) {w1 w2 h1 h2 : Nat}
    (hw : w1 ≤ w2) (hh : h1 ≤ h2) :
    get_sizeimage (get_bytesperline w1 h1 fmt role) w1 h1 fmt ≤
      get_sizeimage (get_bytesperline w2 h2 fmt role) w2 h2 fmt := by
  by_cases hc : fmt.flags &&& V4L2_FMT_FLAG_COMPRESSED ≠ 0
  · unfold get_sizeimage
    rw [if_pos hc, if_pos hc]
    by_cases hj : fmt.fourcc = V4L2_PIX_FMT_JPEG
    · rw [if_pos hj, if_pos hj]
    · rw [if_neg hj, if_neg hj]
      have hwh : w1 * h1 ≤ w2 * h2 := Nat.mul_le_mul hw hh
      by_cases hp1 : w1 * h1 > 1280 * 720
      · rw [if_pos hp1, if_pos (by omega)]
      · rw [if_neg hp1]
        by_cases hp2 : w2 * h2 > 1280 * 720
        · rw [if_pos hp2]
          unfold DEF_COMP_BUF_SIZE_720P_OR_LESS DEF_COMP_BUF_SIZE_GREATER_720P
          decide
        · rw [if_neg hp2]
  · rcases eq_or_ne fmt.fourcc V4L2_PIX_FMT_NV12_COL128 with hcol | hcol
    · unfold get_sizeimage get_bytesperline
      rw [if_neg hc, if_neg hc, if_neg (not_not_intro hcol),
          if_neg (not_not_intro hcol), if_neg (not_not_intro hcol),
          if_neg (not_not_intro hcol), shiftRight_one_eq, shiftRight_one_eq]
      exact Nat.mul_le_mul (ALIGN_mono 128 hw)
        (Nat.div_le_div_right (Nat.mul_le_mul_right 3 hh))
    · unfold get_sizeimage get_bytesperline
      rw [if_neg hc, if_neg hc, if_pos hcol, if_pos hcol, if_pos hcol,
          if_pos hcol, shiftRight_one_eq, shiftRight_one_eq,
          shiftRight_three_eq, shiftRight_three_eq]
      refine Nat.div_le_div_right (Nat.mul_le_mul (Nat.mul_le_mul ?_ hh) le_rfl)
      exact ALIGN_mono _ (Nat.div_le_div_right (Nat.mul_le_mul_right fmt.depth hw))

/-- Witness for C7: monotonicity instantiated on the YUV420 row between
32×32 and 64×48 in the decode role. -/
theorem stride_size_monotone_witness :
    (32 : Nat) ≤ 64 ∧ (32 : Nat) ≤ 48 ∧
    get_sizeimage (get_bytesperline 32 32 fmt_yuv420 Role.DECODE) 32 32 fmt_yuv420 ≤
      get_sizeimage (get_bytesperline 64 48 fmt_yuv420 Role.DECODE) 64 48 fmt_yuv420 :=
  ⟨by decide, by decide,
   stride_size_monotone fmt_yuv420 Role.DECODE (by decide) (by decide)⟩

/-- Bitwise AND distributes over OR (by extensionality on bits). -/
theorem and_or_distrib_right_nat (a b m : Nat) :
    (a ||| b) &&& m = (a &&& m) ||| (b &&& m) := by
  apply Nat.eq_of_testBit_eq
  intro i
  cases ha : a.testBit i <;> cases hb : b.testBit i <;> cases hm : m.testBit i <;>
    simp [Nat.testBit_or, Nat.testBit_and, ha, hb, hm]

/-- C2: every buffer converted by `vb2_to_mmal_buffer` has the
frame-end flag set unconditionally, has the EOS flag set iff the payload
length is zero or the client set the LAST flag, and carries the
presentation timestamp divided from nanoseconds to microseconds. -/
theorem vb2_to_mmal_buffer_spec (fo : Nat) (vb2 : Vb2V4l2Buffer) :
    ((vb2_to_mmal_buffer fo vb2).mmal_flags &&&
        MMAL_BUFFER_HEADER_FLAG_FRAME_END ≠ 0) ∧
    (((vb2_to_mmal_buffer fo vb2).mmal_flags &&&
        MMAL_BUFFER_HEADER_FLAG_EOS ≠ 0) ↔
      (vb2.bytesused = 0 ∨ vb2.flags &&& V4L2_BUF_FLAG_LAST ≠ 0)) ∧
    (vb2_to_mmal_buffer fo vb2).pts = vb2.timestamp / 1000 := by
  unfold vb2_to_mmal_buffer
  dsimp only
  by_cases he : vb2.bytesused = 0 ∨ vb2.flags &&& V4L2_BUF_FLAG_LAST ≠ 0
  · rw [if_pos he]
    split_ifs <;> exact ⟨by decide, iff_of_true (by decide) he, rfl⟩
  · rw [if_neg he]
    split_ifs <;> exact ⟨by decide, iff_of_false (by decide) he, rfl⟩

/-- Witness for C2 (concrete zero-length buffer): EOS set and pts
converted. -/
theorem vb2_to_mmal_buffer_spec_witness :
    ((vb2_to_mmal_buffer 0 ⟨0, 1, 0, 5000⟩).mmal_flags &&&
        MMAL_BUFFER_HEADER_FLAG_EOS ≠ 0) ∧
    (vb2_to_mmal_buffer 0 ⟨0, 1, 0, 5000⟩).pts = 5 := by
  have h := vb2_to_mmal_buffer_spec 0 ⟨0, 1, 0, 5000⟩
  exact ⟨h.2.1.mpr (Or.inl rfl), h.2.2.trans (by decide)⟩

theorem le_dev_max_w (role : Role) : MIN_W ≤ dev_max_w role := by
  cases role <;> decide

theorem le_dev_max_h (role : Role) : MIN_H ≤ dev_max_h role := by
  cases role <;> decide

theorem dev_max_h_dvd16 (role : Role) : 16 ∣ dev_max_h role := by
  cases role <;> decide

/-- Any width already inside the device bounds is a fixed point of the
width clamp. -/
theorem try_fmt_width_fixed (role : Role) (fmt : Fmt) {x : Nat}
    (h1 : x ≤ dev_max_w role)
    (h2 : fmt.flags &&& V4L2_FMT_FLAG_COMPRESSED = 0 → MIN_W ≤ x) :
    try_fmt_width role fmt x = x := by
  unfold try_fmt_width
  dsimp only
  rw [if_neg (not_lt.mpr h1)]
  by_cases hc : fmt.flags &&& V4L2_FMT_FLAG_COMPRESSED = 0
  · rw [if_pos hc, if_neg (not_lt.mpr (h2 hc))]
  · rw [if_neg hc]

/-- The width clamp lands inside the device bounds. -/
theorem try_fmt_width_bounds (role : Role) (fmt : Fmt) (w : Nat) :
    try_fmt_width role fmt w ≤ dev_max_w role ∧
    (fmt.flags &&& V4L2_FMT_FLAG_COMPRESSED = 0 →
      MIN_W ≤ try_fmt_width role fmt w) := by
  have hm := le_dev_max_w role
  unfold MIN_W at hm
  unfold try_fmt_width MIN_W
  dsimp only
  constructor
  · split_ifs <;> omega
  · intro hc
    rw [if_pos hc]
    split_ifs <;> omega

theorem try_fmt_width_idem (role : Role) (fmt : Fmt) (w : Nat) :
    try_fmt_width role fmt (try_fmt_width role fmt w) =
      try_fmt_width role fmt w :=
  try_fmt_width_fixed role fmt (try_fmt_width_bounds role fmt w).1
    (try_fmt_width_bounds role fmt w).2

/-- Any height already inside the bounds, above the minimum and 16-aligned
where the role demands it, is a fixed point of the height clamp. -/
theorem try_fmt_height_fixed (role : Role) (fmt : Fmt) {x : Nat}
    (h1 : x ≤ dev_max_h role)
    (h2 : fmt.flags &&& V4L2_FMT_FLAG_COMPRESSED = 0 → MIN_H ≤ x)
    (h3 : fmt.flags &&& V4L2_FMT_FLAG_COMPRESSED = 0 →
      (role = Role.DECODE ∨ role = Role.ENCODE_IMAGE) → ALIGN x 16 = x) :
    try_fmt_height role fmt x = x := by
  unfold try_fmt_height
  dsimp only
  rw [if_neg (not_lt.mpr h1)]
  by_cases hc : fmt.flags &&& V4L2_FMT_FLAG_COMPRESSED = 0
  · rw [if_pos hc, if_neg (not_lt.mpr (h2 hc))]
    by_cases hr : role = Role.DECODE ∨ role = Role.ENCODE_IMAGE
    · rw [if_pos hr, h3 hc hr]
    · rw [if_neg hr]
  · rw [if_neg hc]

/-- The height clamp lands inside the bounds, above the minimum, and
16-aligned for the roles that align. -/
theorem try_fmt_height_bounds (role : Role) (fmt : Fmt) (h : Nat) :
    try_fmt_height role fmt h ≤ dev_max_h role ∧
    (fmt.flags &&& V4L2_FMT_FLAG_COMPRESSED = 0 →
      MIN_H ≤ try_fmt_height role fmt h) ∧
    (fmt.flags &&& V4L2_FMT_FLAG_COMPRESSED = 0 →
      (role = Role.DECODE ∨ role = Role.ENCODE_IMAGE) →
      ALIGN (try_fmt_height role fmt h) 16 = try_fmt_height role fmt h) := by
  have hm := le_dev_max_h role
  have hd := dev_max_h_dvd16 role
  unfold MIN_H at hm
  unfold try_fmt_height
  dsimp only
  by_cases hc : fmt.flags &&& V4L2_FMT_FLAG_COMPRESSED = 0
  · rw [if_pos hc]
    have e2 : (if (if h > dev_max_h role then dev_max_h role else h) < MIN_H
        then MIN_H
        else if h > dev_max_h role then dev_max_h role else h) ≤ dev_max_h role := by
      unfold MIN_H
      split_ifs <;> omega
    have e3 : MIN_H ≤ (if (if h > dev_max_h role then dev_max_h role else h) < MIN_H
        then MIN_H
        else if h > dev_max_h role then dev_max_h role else h) := by
      split_ifs <;> omega
    by_cases hr : role = Role.DECODE ∨ role = Role.ENCODE_IMAGE
    · rw [if_pos hr]
      exact ⟨ALIGN_le_of_dvd e2 hd,
             fun _ => le_trans e3 (le_ALIGN _ (by norm_num)),
             fun _ _ => ALIGN_idem _ _⟩
    · rw [if_neg hr]
      exact ⟨e2, fun _ => e3, fun _ hr2 => absurd hr2 hr⟩
  · rw [if_neg hc]
    refine ⟨by split_ifs <;> omega, fun hc2 => absurd hc2 hc,
            fun hc2 _ => absurd hc2 hc⟩

theorem try_fmt_height_idem (role : Role) (fmt : Fmt) (h : Nat) :
    try_fmt_height role fmt (try_fmt_height role fmt h) =
      try_fmt_height role fmt h :=
  try_fmt_height_fixed role fmt (try_fmt_height_bounds role fmt h).1
    (try_fmt_height_bounds role fmt h).2.1
    (try_fmt_height_bounds role fmt h).2.2

/-- Re-running the bytesperline raise-and-align on its own output is the
identity: the output is already at least the minimum and already aligned. -/
theorem try_fmt_bpl_stable (role : Role) (fmt : Fmt) (w h bpl : Nat) :
    try_fmt_bpl role fmt w h (try_fmt_bpl role fmt w h bpl) =
      try_fmt_bpl role fmt w h bpl := by
  unfold try_fmt_bpl
  dsimp only
  rcases Nat.eq_zero_or_pos (fmt.bytesperline_align role) with ha | ha
  · simp only [ha, ALIGN_zero]
  · have hge : get_bytesperline w h fmt role ≤
        ALIGN (if bpl < get_bytesperline w h fmt role
               then get_bytesperline w h fmt role else bpl)
          (fmt.bytesperline_align role) := by
      refine le_trans ?_ (le_ALIGN _ ha)
      split_ifs <;> omega
    rw [if_neg (not_lt.mpr hge), ALIGN_idem]

/-- Re-running the sizeimage raise on its own output is the identity. -/
theorem try_fmt_size_stable (fmt : Fmt) (bpl w h size : Nat) :
    try_fmt_size fmt bpl w h (try_fmt_size fmt bpl w h size) =
      try_fmt_size fmt bpl w h size := by
  unfold try_fmt_size
  dsimp only
  split_ifs <;> omega

/-- The field normalization is idempotent. -/
theorem try_fmt_field_idem (role : Role) (f : Nat) :
    try_fmt_field role (try_fmt_field role f) = try_fmt_field role f := by
  unfold try_fmt_field V4L2_FIELD_NONE V4L2_FIELD_TOP V4L2_FIELD_BOTTOM
    V4L2_FIELD_INTERLACED V4L2_FIELD_INTERLACED_TB V4L2_FIELD_INTERLACED_BT
  by_cases hr : role = Role.DECODE ∨ role = Role.DEINTERLACE
  · rw [if_pos hr, if_pos hr]
    split_ifs <;> omega
  · rw [if_neg hr, if_neg hr]

/-- C8: `vidioc_try_fmt` is idempotent — applying it again to its own
output changes nothing: the clamped width/height, the raised-and-aligned
bytesperline, the sizeimage and the normalized field are all fixed points. -/
theorem vidioc_try_fmt_idempotent (role : Role) (f : PixFormatMp) (fmt : Fmt) :
    vidioc_try_fmt role (vidioc_try_fmt role f fmt) fmt =
      vidioc_try_fmt role f fmt := by
  unfold vidioc_try_fmt
  dsimp only
  rw [try_fmt_width_idem, try_fmt_height_idem, try_fmt_bpl_stable,
      try_fmt_size_stable, try_fmt_field_idem]

/-- If the catalog lookup returns an entry, that entry carries the
requested fourcc. -/
theorem find_format_pix_fmt_fourcc {pix : Nat} {fmts : List Fmt} {fmt : Fmt}
    (h : find_format_pix_fmt pix fmts = some fmt) : fmt.fourcc = pix := by
  induction fmts with
  | nil => exact absurd h (by simp [find_format_pix_fmt])
  | cons d t ih =>
    unfold find_format_pix_fmt at h
    cases hb : d.fourcc == pix with
    | true =>
      simp only [List.find?, hb] at h
      cases h
      exact eq_of_beq hb
    | false =>
      simp only [List.find?, hb] at h
      exact ih h

/-- `vidioc_try_fmt` never touches the pixelformat. -/
theorem vidioc_try_fmt_pixelformat (role : Role) (f : PixFormatMp) (fmt : Fmt) :
    (vidioc_try_fmt role f fmt).pixelformat = f.pixelformat := rfl

/-- C10: try-format is total on a device with a nonempty supported
list: both per-direction handlers return 0, an unsupported pixelformat is
silently replaced by the direction's default (first listed) format, and
the returned pixelformat is always a supported one. -/
theorem vidioc_try_fmt_total (role : Role) (fmts : List Fmt)
    (f : PixFormatMp) (cs : Nat) (hne : fmts ≠ []) :
    (∃ g, vidioc_try_fmt_vid_cap role fmts f = some (0, g) ∧
          g.pixelformat ∈ fmts.map Fmt.fourcc ∧
          (find_format_pix_fmt f.pixelformat fmts = none →
            ∃ d, fmts.head? = some d ∧ g.pixelformat = d.fourcc)) ∧
    (∃ g, vidioc_try_fmt_vid_out role cs fmts f = some (0, g) ∧
          g.pixelformat ∈ fmts.map Fmt.fourcc ∧
          (find_format_pix_fmt f.pixelformat fmts = none →
            ∃ d, fmts.head? = some d ∧ g.pixelformat = d.fourcc)) := by
  rcases fmts with _ | ⟨d, t⟩
  · exact absurd rfl hne
  have hd_find : find_format_pix_fmt d.fourcc (d :: t) = some d := by
    unfold find_format_pix_fmt
    rw [List.find?_cons_of_pos _ (by simp)]
  rcases hfind : find_format_pix_fmt f.pixelformat (d :: t) with _ | fmt
  · constructor
    · refine ⟨vidioc_try_fmt role { f with pixelformat := d.fourcc } d, ?_, ?_, ?_⟩
      · unfold vidioc_try_fmt_vid_cap vidioc_try_fmt_dir
        rw [hfind]
        dsimp only [get_default_format, List.head?]
        rw [hd_find]
      · rw [vidioc_try_fmt_pixelformat]
        exact List.mem_map.mpr ⟨d, List.mem_cons_self d t, rfl⟩
      · exact fun _ => ⟨d, rfl, vidioc_try_fmt_pixelformat _ _ _⟩
    · by_cases hcs : f.colorspace = 0
      · refine ⟨vidioc_try_fmt role
          { f with pixelformat := d.fourcc, colorspace := cs } d, ?_, ?_, ?_⟩
        · unfold vidioc_try_fmt_vid_out
          rw [hfind]
          dsimp only [get_default_format, List.head?]
          rw [hd_find]
          dsimp only
          rw [if_pos hcs]
        · rw [vidioc_try_fmt_pixelformat]
          exact List.mem_map.mpr ⟨d, List.mem_cons_self d t, rfl⟩
        · exact fun _ => ⟨d, rfl, vidioc_try_fmt_pixelformat _ _ _⟩
      · refine ⟨vidioc_try_fmt role { f with pixelformat := d.fourcc } d, ?_, ?_, ?_⟩
        · unfold vidioc_try_fmt_vid_out
          rw [hfind]
          dsimp only [get_default_format, List.head?]
          rw [hd_find]
          dsimp only
          rw [if_neg hcs]
        · rw [vidioc_try_fmt_pixelformat]
          exact List.mem_map.mpr ⟨d, List.mem_cons_self d t, rfl⟩
        · exact fun _ => ⟨d, rfl, vidioc_try_fmt_pixelformat _ _ _⟩
  · have hmem : fmt ∈ d :: t := List.mem_of_find?_eq_some hfind
    have hcc : fmt.fourcc = f.pixelformat := find_format_pix_fmt_fourcc hfind
    constructor
    · refine ⟨vidioc_try_fmt role f fmt, ?_, ?_, ?_⟩
      · unfold vidioc_try_fmt_vid_cap vidioc_try_fmt_dir
        rw [hfind]
      · rw [vidioc_try_fmt_pixelformat, ← hcc]
        exact List.mem_map.mpr ⟨fmt, hmem, rfl⟩
      · intro hnone; simp at hnone
    · by_cases hcs : f.colorspace = 0
      · refine ⟨vidioc_try_fmt role { f with colorspace := cs } fmt, ?_, ?_, ?_⟩
        · unfold vidioc_try_fmt_vid_out
          rw [hfind]
          dsimp only
          rw [if_pos hcs]
        · rw [vidioc_try_fmt_pixelformat, ← hcc]
          exact List.mem_map.mpr ⟨fmt, hmem, rfl⟩
        · intro hnone; simp at hnone
      · refine ⟨vidioc_try_fmt role f fmt, ?_, ?_, ?_⟩
        · unfold vidioc_try_fmt_vid_out
          rw [hfind]
          dsimp only
          rw [if_neg hcs]
        · rw [vidioc_try_fmt_pixelformat, ← hcc]
          exact List.mem_map.mpr ⟨fmt, hmem, rfl⟩
        · intro hnone; simp at hnone

/-- Witness for C10: a fourcc of 0 is not in the single-entry YUV420 list,
so both directions replace it with the default and succeed. -/
theorem vidioc_try_fmt_total_witness :
    (∃ g, vidioc_try_fmt_vid_cap Role.DECODE [fmt_yuv420] f_c10 = some (0, g) ∧
          g.pixelformat ∈ [fmt_yuv420].map Fmt.fourcc ∧
          (find_format_pix_fmt f_c10.pixelformat [fmt_yuv420] = none →
            ∃ d, [fmt_yuv420].head? = some d ∧ g.pixelformat = d.fourcc)) ∧
    (∃ g, vidioc_try_fmt_vid_out Role.DECODE 0 [fmt_yuv420] f_c10 = some (0, g) ∧
          g.pixelformat ∈ [fmt_yuv420].map Fmt.fourcc ∧
          (find_format_pix_fmt f_c10.pixelformat [fmt_yuv420] = none →
            ∃ d, [fmt_yuv420].head? = some d ∧ g.pixelformat = d.fourcc)) :=
  vidioc_try_fmt_total Role.DECODE [fmt_yuv420] f_c10 0 (List.cons_ne_nil _ _)

/-- C5: a set-format call on a busy queue fails with `-EBUSY` and
leaves the whole session state (both queue states and the colorimetry)
and the component untouched — no field is written before the busy check. -/
theorem vidioc_s_fmt_busy (env : MmalEnv) (fo fc : List Fmt) (ctx : Ctx)
    (comp : Option Component) (f : PixFormatMp) (typ : BufType) (rh : Nat) :
    vidioc_s_fmt env fo fc ctx comp f typ rh true = some (-EBUSY, ctx, comp) := rfl

/-- Witness for C5 on concrete state. -/
theorem vidioc_s_fmt_busy_witness :
    vidioc_s_fmt env0 [fmt_h264] [fmt_yuv420] ctx0 none f_c3
      BufType.CAPTURE_MPLANE 1088 true = some (-EBUSY, ctx0, none) :=
  vidioc_s_fmt_busy env0 [fmt_h264] [fmt_yuv420] ctx0 none f_c3
    BufType.CAPTURE_MPLANE 1088

/-- C3: a format-changed event carrying a video format updates the
capture queue state (crop from the event's crop, `selection_set` raised,
bytesperline recomputed from the event's width/height through the geometry
calculator, height and minimum buffer size adopted directly); a non-video
event leaves the state untouched; and a later capture-queue set-format
with an uncompressed format while `selection_set` holds does not overwrite
the crop height. -/
theorem handle_fmt_changed_spec (ctx : Ctx) (ev : FormatChangedEvent)
    (il : Option Nat) (strm : Bool) (env : MmalEnv) (fo fc : List Fmt)
    (comp : Option Component) (f : PixFormatMp) (rh : Nat) (fmt : Fmt) :
    (ev.es_type ≠ MMAL_ES_TYPE_VIDEO →
      handle_fmt_changed ctx ev il strm =
        { ctx := ctx, last_buffer_dequeued := false, res_chg_event := false }) ∧
    (ev.es_type = MMAL_ES_TYPE_VIDEO →
      (handle_fmt_changed ctx ev il strm).ctx.q_dst.crop_width = ev.crop_width ∧
      (handle_fmt_changed ctx ev il strm).ctx.q_dst.crop_height = ev.crop_height ∧
      (handle_fmt_changed ctx ev il strm).ctx.q_dst.selection_set = true ∧
      (handle_fmt_changed ctx ev il strm).ctx.q_dst.bytesperline =
        get_bytesperline ev.width ev.height ctx.q_dst.fmt ctx.role ∧
      (handle_fmt_changed ctx ev il strm).ctx.q_dst.height = ev.height ∧
      (handle_fmt_changed ctx ev il strm).ctx.q_dst.sizeimage =
        ev.buffer_size_min) ∧
    (find_format_pix_fmt f.pixelformat fc = some fmt →
     fmt.flags &&& V4L2_FMT_FLAG_COMPRESSED = 0 →
     ctx.q_dst.selection_set = true →
     ∀ ret ctx2 comp2,
       vidioc_s_fmt env fo fc ctx comp f BufType.CAPTURE_MPLANE rh false =
         some (ret, ctx2, comp2) →
       ctx2.q_dst.crop_height = ctx.q_dst.crop_height) := by
  refine ⟨?_, ?_, ?_⟩
  · intro h
    unfold handle_fmt_changed
    rw [if_pos h]
  · intro h
    unfold handle_fmt_changed
    rw [if_neg (not_not_intro h)]
    exact ⟨rfl, rfl, rfl, rfl, rfl, rfl⟩
  · intro hfind hcu hsel ret ctx2 comp2 heq
    unfold vidioc_s_fmt at heq
    rw [if_neg (show ¬(false = true) by simp),
        if_pos (show BufType.CAPTURE_MPLANE = BufType.CAPTURE_MPLANE from rfl),
        hfind] at heq
    dsimp only [get_q_data, set_q_data] at heq
    rw [hsel, hcu] at heq
    rw [if_neg (show ¬(¬true = true ∨ (0 : Nat) ≠ 0) by simp)] at heq
    dsimp only at heq
    rw [if_neg (show ¬((ctx.role = Role.DECODE ∨ ctx.role = Role.ENCODE_IMAGE) ∧
          (0 : Nat) ≠ 0 ∧ f.width ≠ 0 ∧ f.height ≠ 0) by simp)] at heq
    rcases comp with _ | c
    · dsimp only at heq
      simp only [Option.some.injEq, Prod.mk.injEq] at heq
      obtain ⟨-, h2, -⟩ := heq
      rw [← h2]
    · dsimp only [get_port_of, set_port_of] at heq
      by_cases hen : c.output.enabled = true
      · rw [if_pos hen] at heq
        dsimp only at heq
        simp only [Option.some.injEq, Prod.mk.injEq] at heq
        obtain ⟨-, h2, -⟩ := heq
        rw [← h2]
      · rw [if_neg hen] at heq
        dsimp only at heq
        simp only [Option.some.injEq, Prod.mk.injEq] at heq
        obtain ⟨-, h2, -⟩ := heq
        rw [← h2]

/-- Witness for C3: a non-video event leaves `ctx_c3` unchanged; the video
event `ev_c3` installs its crop height; a following capture set-format
with uncompressed YUV420 leaves the crop height alone. -/
theorem handle_fmt_changed_spec_witness :
    handle_fmt_changed ctx_c3 ev_c3_audio none false =
      { ctx := ctx_c3, last_buffer_dequeued := false, res_chg_event := false } ∧
    (handle_fmt_changed ctx_c3 ev_c3 none false).ctx.q_dst.crop_height =
      ev_c3.crop_height ∧
    (∀ ret ctx2 comp2,
      vidioc_s_fmt env0 [fmt_h264] [fmt_yuv420] ctx_c3 none f_c3
          BufType.CAPTURE_MPLANE 1088 false = some (ret, ctx2, comp2) →
      ctx2.q_dst.crop_height = ctx_c3.q_dst.crop_height) := by
  have ha := handle_fmt_changed_spec ctx_c3 ev_c3_audio none false env0
    [fmt_h264] [fmt_yuv420] none f_c3 1088 fmt_yuv420
  have hb := handle_fmt_changed_spec ctx_c3 ev_c3 none false env0
    [fmt_h264] [fmt_yuv420] none f_c3 1088 fmt_yuv420
  exact ⟨ha.1 (by decide), (hb.2.1 rfl).2.1,
         hb.2.2 rfl (by decide) rfl⟩

/-- The port `bcm2835_codec_start_streaming` configures, as selected from
the pair of ports by the queue type. -/
theorem start_streaming_selected (res : StartStreamingResult) (typ : BufType) :
    get_port_of (Component.mk res.input_port res.output_port) typ =
      match typ with
      | BufType.OUTPUT_MPLANE => res.input_port
      | BufType.CAPTURE_MPLANE => res.output_port := by
  cases typ <;> rfl

/-- The disable/drain/restore phase hands back the buffer count it
observed before disabling. -/
theorem reset_port_num (p : Port) (rn : Nat) (dc : Bool) :
    (start_streaming_reset_port p rn dc).current_buffer.num =
      p.current_buffer.num := by
  unfold start_streaming_reset_port bcm2835_codec_flush_buffers
    vchiq_mmal_port_disable
  dsimp only
  split_ifs <;> rfl

/-- The disable/drain/restore phase does not touch the VPU minimum. -/
theorem reset_port_min (p : Port) (rn : Nat) (dc : Bool) :
    (start_streaming_reset_port p rn dc).minimum_buffer = p.minimum_buffer := by
  unfold start_streaming_reset_port bcm2835_codec_flush_buffers
    vchiq_mmal_port_disable
  dsimp only
  split_ifs <;> rfl

/-- After the disable/drain/restore phase the port is disabled (it either
was disabled already or was just disabled). -/
theorem reset_port_enabled (p : Port) (rn : Nat) (dc : Bool) :
    (start_streaming_reset_port p rn dc).enabled = false := by
  unfold start_streaming_reset_port bcm2835_codec_flush_buffers
    vchiq_mmal_port_disable
  dsimp only
  split_ifs with h <;> first | rfl | simpa using h

/-- The count raise lands exactly on
`max previous (max requested minimum + 1)`. -/
theorem raise_count_num (p : Port) (c : Nat) :
    (start_streaming_raise_count p c).current_buffer.num =
      max p.current_buffer.num (max c p.minimum_buffer.num + 1) := by
  unfold start_streaming_raise_count
  dsimp only
  split_ifs <;> (try dsimp only) <;> omega

/-- The count raise does not change the enable state. -/
theorem raise_count_enabled (p : Port) (c : Nat) :
    (start_streaming_raise_count p c).enabled = p.enabled := by
  unfold start_streaming_raise_count
  dsimp only
  split_ifs <;> rfl

/-- C6: when start-streaming finds the port already enabled it
disables it first, runs the bounded-timeout drain, and restores the buffer
count observed before the disable; in every call the final configured
count equals `max(previous, max(requested, port minimum) + 1)` — in
particular it is at least `max(requested, port minimum) + 1` — the port
format is re-pushed exactly when that raised the count, and the port ends
up enabled. -/
theorem start_streaming_spec (role : Role) (typ : BufType) (count : Nat)
    (ce : Bool) (ip op : Port) (rn : Nat) (dc : Bool) (port : Port)
    (hport : port = get_port_of (Component.mk ip op) typ)
    (res : StartStreamingResult)
    (hres : res = bcm2835_codec_start_streaming role typ count ce ip op rn dc) :
    (port.enabled = true →
      res.did_disable = true ∧ res.did_flush = true ∧
      res.num_restored = some port.current_buffer.num) ∧
    (get_port_of (Component.mk res.input_port res.output_port)
        typ).current_buffer.num =
      max port.current_buffer.num
        (max count port.minimum_buffer.num + 1) ∧
    max count port.minimum_buffer.num + 1 ≤
      (get_port_of (Component.mk res.input_port res.output_port)
        typ).current_buffer.num ∧
    (res.did_set_format = true ↔
      port.current_buffer.num <
        max count port.minimum_buffer.num + 1) ∧
    (get_port_of (Component.mk res.input_port res.output_port)
        typ).enabled = true := by
  subst hres hport
  cases typ
  all_goals
    unfold bcm2835_codec_start_streaming
  all_goals
    dsimp only [get_port_of]
  · refine ⟨fun h => ⟨h, h, by rw [if_pos h]⟩, ?_, ?_, ?_, rfl⟩
    · rw [raise_count_num, reset_port_num, reset_port_min]
    · rw [raise_count_num, reset_port_num, reset_port_min]
      omega
    · rw [decide_eq_true_eq, reset_port_num, reset_port_min]
      split_ifs <;> omega
  · have hen2 : (start_streaming_raise_count
        (start_streaming_reset_port op rn dc) count).enabled = false := by
      rw [raise_count_enabled, reset_port_enabled]
    refine ⟨fun h => ⟨h, h, by rw [if_pos h]⟩, ?_, ?_, ?_, ?_⟩
    · rw [if_pos (by simp [hen2])]
      dsimp only
      rw [raise_count_num, reset_port_num, reset_port_min]
    · rw [if_pos (by simp [hen2])]
      dsimp only
      rw [raise_count_num, reset_port_num, reset_port_min]
      omega
    · rw [decide_eq_true_eq, reset_port_num, reset_port_min]
      split_ifs <;> omega
    · rw [if_pos (by simp [hen2])]

/-- Witness for C6: starting the capture queue of a decode session whose
output port is already enabled (4 buffers configured, VPU minimum 2,
client requests 3). -/
theorem start_streaming_spec_witness :
    (bcm2835_codec_start_streaming Role.DECODE BufType.CAPTURE_MPLANE 3 true
       port_idle port_c6 77 true).did_disable = true ∧
    (bcm2835_codec_start_streaming Role.DECODE BufType.CAPTURE_MPLANE 3 true
       port_idle port_c6 77 true).num_restored =
      some port_c6.current_buffer.num ∧
    max 3 port_c6.minimum_buffer.num + 1 ≤
      (get_port_of
        (Component.mk
          (bcm2835_codec_start_streaming Role.DECODE BufType.CAPTURE_MPLANE 3
            true port_idle port_c6 77 true).input_port
          (bcm2835_codec_start_streaming Role.DECODE BufType.CAPTURE_MPLANE 3
            true port_idle port_c6 77 true).output_port)
        BufType.CAPTURE_MPLANE).current_buffer.num := by
  have h := start_streaming_spec Role.DECODE BufType.CAPTURE_MPLANE 3 true
    port_idle port_c6 77 true port_c6 rfl _ rfl
  exact ⟨(h.1 rfl).1, (h.1 rfl).2.2, h.2.2.1⟩

/-- Counterexample for C9 as stated: in the decode role, a compose-target
set-selection does not clip the height to the current crop rectangle's
`crop_height`; it clips to the queue's buffer height.  On a queue showing
a 64×100 crop inside a 112-line buffer, requesting 64×112 stores a crop
height of 112, not `min 112 crop_height = 100`. -/
theorem s_selection_clips_to_buffer_height :
    ((vidioc_s_selection env0 ctx_c9 none sel_c9).2.1.q_dst.crop_height = 112) ∧
    ¬((vidioc_s_selection env0 ctx_c9 none sel_c9).2.1.q_dst.crop_height =
        min sel_c9.r.height ctx_c9.q_dst.crop_height) := by
  constructor
  · rfl
  · intro h
    rw [show (vidioc_s_selection env0 ctx_c9 none sel_c9).2.1.q_dst.crop_height
          = 112 from rfl] at h
    simp [sel_c9, ctx_c9, ctx0, qdata0] at h

/-- C9 (amended): for every compose-target set-selection in the decode
role, the resulting rectangle is anchored at the origin, its width is
clipped to the current crop width and its height to the queue's configured
buffer height (`q_data->height`, not `crop_height`), the clipped values
are stored as the output queue's crop width/height, and the
crop-explicitly-set flag is marked. -/
theorem s_selection_decode_compose (env : MmalEnv) (ctx : Ctx)
    (comp : Option Component) (s : V4l2Selection)
    (hrole : ctx.role = Role.DECODE)
    (htyp : s.typ = V4L2_BUF_TYPE_VIDEO_CAPTURE)
    (htgt : s.target = V4L2_SEL_TGT_COMPOSE) :
    ∀ ret ctx2 s2 comp2,
      vidioc_s_selection env ctx comp s = (ret, ctx2, s2, comp2) →
      s2.r.left = 0 ∧ s2.r.top = 0 ∧
      s2.r.width = min s.r.width ctx.q_dst.crop_width ∧
      s2.r.height = min s.r.height ctx.q_dst.height ∧
      ctx2.q_dst.crop_width = min s.r.width ctx.q_dst.crop_width ∧
      ctx2.q_dst.crop_height = min s.r.height ctx.q_dst.height ∧
      ctx2.q_dst.selection_set = true := by
  intro ret ctx2 s2 comp2 heq
  unfold vidioc_s_selection at heq
  rw [htyp, hrole, htgt] at heq
  simp only [reduceIte] at heq
  rw [if_neg (show ¬(Role.DECODE = Role.ENCODE ∨ Role.DECODE = Role.ENCODE_IMAGE)
    by simp)] at heq
  dsimp only [get_q_data, set_q_data] at heq
  rcases comp with _ | c <;> dsimp only at heq
  · rw [Prod.mk.injEq, Prod.mk.injEq, Prod.mk.injEq] at heq
    obtain ⟨-, h2, h3, -⟩ := heq
    rw [← h2, ← h3]
    exact ⟨rfl, rfl, rfl, rfl, rfl, rfl, rfl⟩
  · by_cases hsf : env.set_format_ret ≠ 0
    · rw [if_pos hsf] at heq
      rw [Prod.mk.injEq, Prod.mk.injEq, Prod.mk.injEq] at heq
      obtain ⟨-, h2, h3, -⟩ := heq
      rw [← h2, ← h3]
      exact ⟨rfl, rfl, rfl, rfl, rfl, rfl, rfl⟩
    · rw [if_neg hsf] at heq
      rw [Prod.mk.injEq, Prod.mk.injEq, Prod.mk.injEq] at heq
      obtain ⟨-, h2, h3, -⟩ := heq
      rw [← h2, ← h3]
      exact ⟨rfl, rfl, rfl, rfl, rfl, rfl, rfl⟩

/-- Witness for the amended C9 on the concrete 64×100-in-112 state. -/
theorem s_selection_decode_compose_witness :
    (vidioc_s_selection env0 ctx_c9 none sel_c9).2.2.1.r.left = 0 ∧
    (vidioc_s_selection env0 ctx_c9 none sel_c9).2.1.q_dst.crop_height =
      min sel_c9.r.height ctx_c9.q_dst.height ∧
    (vidioc_s_selection env0 ctx_c9 none sel_c9).2.1.q_dst.selection_set =
      true := by
  have h := s_selection_decode_compose env0 ctx_c9 none sel_c9 rfl rfl rfl
    (vidioc_s_selection env0 ctx_c9 none sel_c9).1
    (vidioc_s_selection env0 ctx_c9 none sel_c9).2.1
    (vidioc_s_selection env0 ctx_c9 none sel_c9).2.2.1
    (vidioc_s_selection env0 ctx_c9 none sel_c9).2.2.2 rfl
  exact ⟨h.1, h.2.2.2.2.2.1, h.2.2.2.2.2.2⟩
